import Mathlib

/-!
Shallow embedding of the rdb-autoresize control program.

The program polls a managed database instance's disk-usage percentage and,
when it exceeds a configured trigger, grows the volume by a fixed increment,
subject to a size ceiling and instance-state preconditions.

Provider calls (`GetInstance`, `GetInstanceMetrics`, `UpgradeInstance`) are
modelled by their responses, supplied as explicit parameters: one evaluation
cycle of the control loop is a pure function of the configured parameters and
the provider responses observed during that cycle.  Machine integers
(`uint64` sizes, `int64` limits) are modelled as `Nat`/`Int` with explicit
wrap-around at `2 ^ 64` where the Go code performs conversions.  Percentages
(`float64` in the source) are modelled as rationals: every operation the
program performs on them is an order comparison.
-/

namespace RdbAutoResize

/-- Instance status enumeration of the provider SDK (`rdb.InstanceStatus`). -/
inductive InstanceStatus
  | unknown
  | ready
  | provisioning
  | configuring
  | deleting
  | errorStatus
  | autohealing
  | locked
  | initializing
  | diskFull
  | backuping
  | snapshotting
  | restarting
deriving DecidableEq, Repr

/-- String rendering of a status, as interpolated into Go error messages. -/
def InstanceStatus.toStr : InstanceStatus → String
  | .unknown => "unknown"
  | .ready => "ready"
  | .provisioning => "provisioning"
  | .configuring => "configuring"
  | .deleting => "deleting"
  | .errorStatus => "error"
  | .autohealing => "autohealing"
  | .locked => "locked"
  | .initializing => "initializing"
  | .diskFull => "disk_full"
  | .backuping => "backuping"
  | .snapshotting => "snapshotting"
  | .restarting => "restarting"

/-- Volume type enumeration of the provider SDK (`rdb.VolumeType`); only
`bssd` is resizable by this program. -/
inductive VolumeType
  | lssd
  | bssd
  | sbs5k
  | sbs15k
  | unknownType
deriving DecidableEq, Repr

/-- String rendering of a volume type, as interpolated into error messages. -/
def VolumeType.toStr : VolumeType → String
  | .lssd => "lssd"
  | .bssd => "bssd"
  | .sbs5k => "sbs_5k"
  | .sbs15k => "sbs_15k"
  | .unknownType => "unknown_type"

/-- `rdb.Volume`: the type and current provisioned size (a `uint64` byte
count, modelled as `Nat`). -/
structure Volume where
  type : VolumeType
  size : Nat
deriving DecidableEq, Repr

/-- `rdb.Instance`: the fields the program reads. -/
structure Instance where
  id : String
  name : String
  region : String
  status : InstanceStatus
  volume : Volume
deriving DecidableEq, Repr

/-- One data point of a metrics time series (`rdb.TimeseriesPoint`): the
program reads only its value. -/
structure Point where
  value : Rat
deriving DecidableEq, Repr

/-- One time series of a metrics response (`rdb.Timeseries`). -/
structure Timeseries where
  points : List Point
deriving DecidableEq, Repr

/-- A metrics response (`rdb.InstanceMetrics`). -/
structure Metrics where
  timeseries : List Timeseries
deriving DecidableEq, Repr

/-- `rdb.UpgradeInstanceRequest`, restricted to the fields this program
sets: region, instance id and the requested volume size. -/
structure UpgradeInstanceRequest where
  region : String
  instanceID : String
  volumeSize : Nat
deriving DecidableEq, Repr

/-- The `AutoResizer` helper of `rdb.go`: region and instance id used for
every provider request. -/
structure AutoResizer where
  region : String
  instanceID : String
deriving DecidableEq, Repr

/-- Result of `GetDiskUsagePercent`: a Go `(float64, error)` pair, plus the
`crash` outcome for a runtime panic (out-of-range slice index), which in Go
terminates the process. -/
inductive UsageResult
  | ok (v : Rat)
  | err (e : String)
  | crash (msg : String)
deriving DecidableEq, Repr

/-- `AutoResizer.GetDiskUsagePercent` of `rdb.go`, as a function of the
`GetInstanceMetrics` response.  The Go code is

```
if err != nil { return 0, err }
if len(metrics.Timeseries) != 1 && len(metrics.Timeseries[0].Points) != 1 {
    return 0, fmt.Errorf("malformed output")
}
return float64(metrics.Timeseries[0].Points[0].Value), nil
```

with Go's short-circuit `&&`: the second conjunct (and hence the index
`Timeseries[0]`) is evaluated only when the first holds, and an index into an
empty slice panics. -/
def GetDiskUsagePercent (resp : Except String Metrics) : UsageResult :=
  match resp with
  | .error e => .err e
  | .ok metrics =>
    if metrics.timeseries.length ≠ 1 then
      match metrics.timeseries with
      | [] => .crash "index out of range"
      | ts0 :: _ =>
        if ts0.points.length ≠ 1 then
          .err "malformed output"
        else
          match ts0.points with
          | [] => .crash "index out of range"
          | p :: _ => .ok p.value
    else
      match metrics.timeseries with
      | [] => .crash "index out of range"
      | ts0 :: _ =>
        match ts0.points with
        | [] => .crash "index out of range"
        | p :: _ => .ok p.value

/-- `AutoResizer.ResizeVolume` of `rdb.go`, as a function of the response to
the `GetInstance` call it performs and of the provider's reaction to an
`UpgradeInstance` request.  The first component records the upgrade request
issued to the provider, if any; the second is the Go return value. -/
def ResizeVolume (ar : AutoResizer) (getInstanceResp : Except String Instance)
    (upgradeResp : UpgradeInstanceRequest → Except String Instance) (newSize : Nat) :
    Option UpgradeInstanceRequest × Except String Instance :=
  match getInstanceResp with
  | .error e => (none, .error e)
  | .ok inst =>
    if inst.status ≠ InstanceStatus.ready ∧ inst.status ≠ InstanceStatus.diskFull then
      (none, .error ("instance is not in a ready state: " ++ inst.status.toStr))
    else
      let req : UpgradeInstanceRequest :=
        { region := ar.region, instanceID := ar.instanceID, volumeSize := newSize }
      (some req, upgradeResp req)

/-- `diskSizeIncrement = uint64(5 * units.GB)` of `main.go`; `units.GB` is
the decimal gigabyte, `10 ^ 9` bytes. -/
def diskSizeIncrement : Nat := 5 * 1000000000

/-- Go conversion `uint64(i)` of an `int64` value: two's-complement
wrap-around into `[0, 2 ^ 64)`. -/
def uint64OfInt (i : Int) : Nat := (i % (2 ^ 64 : Int)).toNat

/-- Go conversion `int64(n)` of a `uint64` value: two's-complement
reinterpretation into `[-2 ^ 63, 2 ^ 63)`. -/
def int64OfUint64 (n : Nat) : Int :=
  if n % 2 ^ 64 < 2 ^ 63 then ((n % 2 ^ 64 : Nat) : Int)
  else ((n % 2 ^ 64 : Nat) : Int) - 2 ^ 64

/-- How one iteration of the control loop ends: proceed to the next tick,
terminate the process via `os.Exit`, or crash on a runtime panic. -/
inductive CycleOutcome
  | next
  | exitProcess (code : Nat)
  | crashed
deriving DecidableEq, Repr

/-- The provider responses observed during one evaluation cycle:
the metrics response, the response to the cycle's own `GetInstance`,
the response to the `GetInstance` performed inside `ResizeVolume`, and the
provider's reaction to an upgrade request. -/
structure CycleEnv where
  metricsResp : Except String Metrics
  instResp : Except String Instance
  resizeInstResp : Except String Instance
  upgradeResp : UpgradeInstanceRequest → Except String Instance

/-- One iteration of the control loop of `main.go` (the body of
`for ; ; <-t.C`), returning the list of upgrade requests issued to the
provider during the cycle together with how the cycle ends:

```
v, err := rdbAR.GetDiskUsagePercent(ctx)
if err != nil { log; continue }
if v > triggerPercent {
    instance, err := rdbAR.GetInstance(ctx)
    if err != nil { log; continue }
    if instance.Volume.Type != rdb.VolumeTypeBssd { log; os.Exit(1) }
    targetSize := uint64(instance.Volume.Size) + diskSizeIncrement
    if targetSize > uint64(volumeSizeLimit) { log; os.Exit(1) }
    _, err := rdbAR.ResizeVolume(ctx, targetSize)
    if err != nil { log; continue }
}
```
-/
def runCycle (ar : AutoResizer) (triggerPercent : Rat) (volumeSizeLimit : Int)
    (env : CycleEnv) : List UpgradeInstanceRequest × CycleOutcome :=
  match GetDiskUsagePercent env.metricsResp with
  | .crash _ => ([], .crashed)
  | .err _ => ([], .next)
  | .ok v =>
    if v > triggerPercent then
      match env.instResp with
      | .error _ => ([], .next)
      | .ok inst =>
        if inst.volume.type ≠ VolumeType.bssd then
          ([], .exitProcess 1)
        else
          if (inst.volume.size + diskSizeIncrement) % 2 ^ 64 >
              uint64OfInt volumeSizeLimit then
            ([], .exitProcess 1)
          else
            match ResizeVolume ar env.resizeInstResp env.upgradeResp
                ((inst.volume.size + diskSizeIncrement) % 2 ^ 64) with
            | (none, _) => ([], .next)
            | (some req, _) => ([req], .next)
    else
      ([], .next)

/-- The domain of a Go `float64` as far as this program's order comparisons
can distinguish values: a finite value (every finite float is a rational,
represented exactly), the two infinities, and NaN.  `strconv.ParseFloat`
accepts `"NaN"`, `"Inf"`, `"+Inf"` and `"-Inf"` in addition to finite
numerals, so all four shapes are reachable parse results. -/
inductive GoFloat
  | num (q : Rat)
  | posInf
  | negInf
  | nan
deriving DecidableEq, Repr

/-- IEEE-754 `>=` on `float64`: false whenever either operand is NaN. -/
def GoFloat.fge : GoFloat → GoFloat → Bool
  | .nan, _ => false
  | _, .nan => false
  | .posInf, _ => true
  | .num _, .posInf => false
  | .num a, .num b => decide (a ≥ b)
  | .num _, .negInf => true
  | .negInf, .negInf => true
  | .negInf, _ => false

/-- IEEE-754 `<` on `float64`: false whenever either operand is NaN. -/
def GoFloat.flt : GoFloat → GoFloat → Bool
  | .nan, _ => false
  | _, .nan => false
  | .posInf, _ => false
  | .num _, .posInf => true
  | .num a, .num b => decide (a < b)
  | .num _, .negInf => false
  | .negInf, .posInf => true
  | .negInf, .num _ => true
  | .negInf, .negInf => false

/-- `parseOptions` of `main.go`, as a function of the results of
`strconv.ParseFloat` on the trigger flag and `units.FromHumanSize` on the
limit flag (`none` = parse failure).  The trigger is a `float64`, so the
guard `triggerPercent >= 100 || triggerPercent < 80` is evaluated with IEEE
comparisons, on which NaN is incomparable. -/
def parseOptions (triggerParsed : Option GoFloat) (limitParsed : Option Int) :
    Except String (GoFloat × Int) :=
  match triggerParsed with
  | none => .error "invalid trigger percentage"
  | some triggerPercent =>
    if triggerPercent.fge (GoFloat.num 100) || triggerPercent.flt (GoFloat.num 80) then
      .error "trigger percent must be between 80 and 100"
    else
      match limitParsed with
      | none => .error "invalid volume size limit"
      | some volumeSizeLimit =>
        if volumeSizeLimit = 0 then
          .error "limit is ZERO, no resize can happen"
        else
          .ok (triggerPercent, volumeSizeLimit)

/-- The startup pre-check block of `main.go`, as a function of the response
to its `GetInstance` call: the instance must have a `bssd` volume whose size
(converted to `int64`) is strictly below the configured limit. -/
def preflight (volumeSizeLimit : Int) (instResp : Except String Instance) :
    Except String Unit :=
  match instResp with
  | .error e => .error e
  | .ok inst =>
    if inst.volume.type ≠ VolumeType.bssd then
      .error ("unsupported volume type: " ++ inst.volume.type.toStr)
    else if int64OfUint64 inst.volume.size ≥ volumeSizeLimit then
      .error "current volume size is larger than the defined limit"
    else
      .ok ()

/-- The startup phase of `main` before the control loop: option parsing,
API-client creation (modelled by a success flag) and the instance
preflight; every failure is `os.Exit(1)`, modelled as `Except.error 1`. -/
def startup (triggerParsed : Option GoFloat) (limitParsed : Option Int)
    (clientOk : Bool) (instResp : Except String Instance) :
    Except Nat (GoFloat × Int) :=
  match parseOptions triggerParsed limitParsed with
  | .error _ => .error 1
  | .ok cfg =>
    if clientOk = false then
      .error 1
    else
      match preflight cfg.2 instResp with
      | .error _ => .error 1
      | .ok _ => .ok cfg

/-! ### Concrete fixtures used in witnesses and counterexamples -/

/-- A resizer handle with concrete identifiers. -/
def arX : AutoResizer := { region := "fr-par", instanceID := "inst-1" }

/-- A well-formed metrics response: one time series with one point. -/
def oneMetric (v : Rat) : Metrics := { timeseries := [{ points := [{ value := v }] }] }

/-- An instance descriptor with the given status, volume type and size. -/
def mkInst (st : InstanceStatus) (ty : VolumeType) (sz : Nat) : Instance :=
  { id := "11111111-2222-3333-4444-555555555555", name := "db", region := "fr-par",
    status := st, volume := { type := ty, size := sz } }

/-- A provider that fails every upgrade request. -/
def noUpgrade : UpgradeInstanceRequest → Except String Instance :=
  fun _ => Except.error "unavailable"

/-! ### Claim theorems -/

/-- Claim C4: for every cycle whose sampled usage is at or below the trigger
percentage, no action is taken and no resize request is issued; the
comparison `v > triggerPercent` is strict, so a sample exactly equal to the
trigger does not fire. -/
theorem no_action_at_or_below_trigger (ar : AutoResizer) (t : Rat) (limit : Int)
    (env : CycleEnv) (v : Rat)
    (hv : GetDiskUsagePercent env.metricsResp = UsageResult.ok v)
    (hle : v ≤ t) :
    runCycle ar t limit env = ([], CycleOutcome.next) := by
  simp only [runCycle, hv]
  rw [if_neg (not_lt.mpr hle)]

/-- Witness for C4, at the strictness edge: a sample of exactly 90 against a
trigger of 90 takes no action. -/
theorem no_action_at_or_below_trigger_witness :
    GetDiskUsagePercent (Except.ok (oneMetric 90)) = UsageResult.ok 90 ∧
    runCycle arX 90 100000000000
      { metricsResp := Except.ok (oneMetric 90),
        instResp := Except.error "unused",
        resizeInstResp := Except.error "unused",
        upgradeResp := noUpgrade }
      = ([], CycleOutcome.next) :=
  ⟨rfl, no_action_at_or_below_trigger arX 90 100000000000 _ 90 rfl (le_refl 90)⟩

/-- Claim C5 (code bug): a metrics response with two time series, the first
of which has exactly one point, is a malformed shape (the provider contract
is exactly one series with exactly one point), yet `GetDiskUsagePercent`
accepts it and returns the first series' point instead of the malformed-
output error: the Go condition joins its two tests with `&&` where the
intended shape check needs `||`. -/
theorem malformed_metrics_accepted_two_series :
    GetDiskUsagePercent
      (Except.ok { timeseries := [{ points := [{ value := 97 }] },
                                  { points := [{ value := 12 }] }] })
      = UsageResult.ok 97 := rfl

/-- Claim C9 (code bug): on a metrics response with an empty list of time
series, `GetDiskUsagePercent` evaluates `metrics.Timeseries[0]` inside the
malformed-shape condition and panics with an out-of-range index instead of
returning an error. -/
theorem empty_timeseries_crashes :
    GetDiskUsagePercent (Except.ok { timeseries := [] })
      = UsageResult.crash "index out of range" := rfl

/-- Counterexample to claim C6: a cycle that samples 99 % (over the trigger
of 90) and then finds a non-resizable volume type terminates the process
with `os.Exit(1)` instead of logging and proceeding to the next tick. -/
theorem cycle_volume_type_mismatch_exits :
    runCycle arX 90 100000000000
      { metricsResp := Except.ok (oneMetric 99),
        instResp := Except.ok (mkInst InstanceStatus.ready VolumeType.lssd 50000000000),
        resizeInstResp := Except.error "unused",
        upgradeResp := noUpgrade }
      = ([], CycleOutcome.exitProcess 1) := rfl

/-- Claim C6 as amended: errors from the usage query, from the cycle's
instance fetch, and from the resize attempt are logged and the loop proceeds
to the next tick; but a non-resizable volume type or an over-limit target
size observed inside a cycle terminates the process with exit status 1. -/
theorem cycle_error_policy (ar : AutoResizer) (t : Rat) (limit : Int) (env : CycleEnv) :
    (∀ e, GetDiskUsagePercent env.metricsResp = UsageResult.err e →
      runCycle ar t limit env = ([], CycleOutcome.next)) ∧
    (∀ v e, GetDiskUsagePercent env.metricsResp = UsageResult.ok v → v > t →
      env.instResp = Except.error e →
      runCycle ar t limit env = ([], CycleOutcome.next)) ∧
    (∀ v inst, GetDiskUsagePercent env.metricsResp = UsageResult.ok v → v > t →
      env.instResp = Except.ok inst → inst.volume.type ≠ VolumeType.bssd →
      runCycle ar t limit env = ([], CycleOutcome.exitProcess 1)) ∧
    (∀ v inst, GetDiskUsagePercent env.metricsResp = UsageResult.ok v → v > t →
      env.instResp = Except.ok inst → inst.volume.type = VolumeType.bssd →
      (inst.volume.size + diskSizeIncrement) % 2 ^ 64 > uint64OfInt limit →
      runCycle ar t limit env = ([], CycleOutcome.exitProcess 1)) ∧
    (∀ v inst, GetDiskUsagePercent env.metricsResp = UsageResult.ok v → v > t →
      env.instResp = Except.ok inst → inst.volume.type = VolumeType.bssd →
      ¬ (inst.volume.size + diskSizeIncrement) % 2 ^ 64 > uint64OfInt limit →
      (runCycle ar t limit env).2 = CycleOutcome.next) := by
  refine ⟨?_, ?_, ?_, ?_, ?_⟩
  · intro e he
    simp only [runCycle, he]
  · intro v e hv hgt he
    simp only [runCycle, hv, he]
    rw [if_pos hgt]
  · intro v inst hv hgt hi hty
    simp only [runCycle, hv, hi]
    rw [if_pos hgt, if_pos hty]
  · intro v inst hv hgt hi hty hsz
    simp only [runCycle, hv, hi, hty]
    rw [if_pos hgt, if_neg (by simp), if_pos hsz]
  · intro v inst hv hgt hi hty hsz
    simp only [runCycle, hv, hi, hty]
    rw [if_pos hgt, if_neg (by simp), if_neg hsz]
    rcases ResizeVolume ar env.resizeInstResp env.upgradeResp
        ((inst.volume.size + diskSizeIncrement) % 2 ^ 64) with ⟨_ | req, res⟩ <;> rfl

/-- Witness for the amended C6: a failed usage query is logged and the cycle
proceeds to the next tick. -/
theorem cycle_error_policy_witness :
    runCycle arX 90 100000000000
      { metricsResp := Except.error "transport timeout",
        instResp := Except.error "unused",
        resizeInstResp := Except.error "unused",
        upgradeResp := noUpgrade }
      = ([], CycleOutcome.next) :=
  (cycle_error_policy arX 90 100000000000 _).1 "transport timeout" rfl

/-- Claim C10: whenever `ResizeVolume` issues an upgrade request to the
provider, the requested volume size is exactly the `newSize` argument the
caller supplied; the instance descriptor `ResizeVolume` re-fetches is used
only for the status gate, never to recompute the size. -/
theorem resizeVolume_uses_caller_size (ar : AutoResizer) (gi : Except String Instance)
    (up : UpgradeInstanceRequest → Except String Instance) (newSize : Nat)
    (req : UpgradeInstanceRequest) (res : Except String Instance)
    (h : ResizeVolume ar gi up newSize = (some req, res)) :
    req.volumeSize = newSize := by
  unfold ResizeVolume at h
  split at h
  · simp at h
  · split at h
    · simp at h
    · simp only [Prod.mk.injEq, Option.some.injEq] at h
      rw [← h.1]

/-- Witness for C10: the re-fetched instance reports a volume of 999 bytes,
yet the issued request carries the caller's 15 GB size unchanged. -/
theorem resizeVolume_uses_caller_size_witness :
    ({ region := "fr-par", instanceID := "inst-1", volumeSize := 15000000000 } :
        UpgradeInstanceRequest).volumeSize = 15000000000 :=
  resizeVolume_uses_caller_size arX
    (Except.ok (mkInst InstanceStatus.ready VolumeType.bssd 999)) noUpgrade 15000000000
    { region := "fr-par", instanceID := "inst-1", volumeSize := 15000000000 }
    (Except.error "unavailable") rfl

/-- Claim C1: when the sampled usage is strictly over the trigger, the
freshly fetched instance is `ready`/`diskFull` with a `bssd` volume, and the
current size plus the fixed increment is within the configured limit,
exactly one resize request is issued and its requested size is exactly
`currentVolumeSize + diskSizeIncrement` — the fixed increment, independent
of how far usage exceeds the trigger. -/
theorem resize_issued_with_fixed_increment (ar : AutoResizer) (t : Rat) (limit : Int)
    (env : CycleEnv) (inst : Instance) (v : Rat)
    (hv : GetDiskUsagePercent env.metricsResp = UsageResult.ok v)
    (hgt : v > t)
    (hinst : env.instResp = Except.ok inst)
    (hrinst : env.resizeInstResp = Except.ok inst)
    (hstatus : inst.status = InstanceStatus.ready ∨ inst.status = InstanceStatus.diskFull)
    (htype : inst.volume.type = VolumeType.bssd)
    (hlim0 : 0 ≤ limit) (hlim63 : limit < 2 ^ 63)
    (hlim : (inst.volume.size : Int) + (diskSizeIncrement : Int) ≤ limit) :
    (runCycle ar t limit env).1.map (fun r => r.volumeSize)
      = [inst.volume.size + diskSizeIncrement] := by
  have hnat : inst.volume.size + diskSizeIncrement ≤ limit.toNat := by omega
  have hlt64 : inst.volume.size + diskSizeIncrement < 2 ^ 64 := by
    have h64 : limit.toNat < 2 ^ 64 := by omega
    omega
  have hmod : (inst.volume.size + diskSizeIncrement) % 2 ^ 64
      = inst.volume.size + diskSizeIncrement := Nat.mod_eq_of_lt hlt64
  have hu : uint64OfInt limit = limit.toNat := by
    unfold uint64OfInt
    rw [Int.emod_eq_of_lt hlim0 (lt_trans hlim63 (by norm_num))]
  have hcond : ¬ (inst.volume.size + diskSizeIncrement) % 2 ^ 64 > uint64OfInt limit := by
    rw [hmod, hu]
    omega
  simp only [runCycle, hv, hinst, htype]
  rw [if_pos hgt, if_neg (by simp), if_neg hcond]
  simp only [ResizeVolume, hrinst]
  rw [if_neg (by rcases hstatus with h | h <;> simp [h])]
  simp only [hmod]
  simp

/-- Witness for C1, Scenario A of the specification: trigger 90, limit
100 GB, current volume 80 GB, sample 95 % — exactly one resize request is
issued, for 85 GB. -/
theorem resize_issued_with_fixed_increment_witness :
    (95 : Rat) > 90 ∧
    (runCycle arX 90 100000000000
      { metricsResp := Except.ok (oneMetric 95),
        instResp := Except.ok (mkInst InstanceStatus.ready VolumeType.bssd 80000000000),
        resizeInstResp := Except.ok (mkInst InstanceStatus.ready VolumeType.bssd 80000000000),
        upgradeResp := noUpgrade }).1.map (fun r => r.volumeSize)
      = [85000000000] := by
  refine ⟨by norm_num, ?_⟩
  have h := resize_issued_with_fixed_increment arX 90 100000000000
    { metricsResp := Except.ok (oneMetric 95),
      instResp := Except.ok (mkInst InstanceStatus.ready VolumeType.bssd 80000000000),
      resizeInstResp := Except.ok (mkInst InstanceStatus.ready VolumeType.bssd 80000000000),
      upgradeResp := noUpgrade }
    (mkInst InstanceStatus.ready VolumeType.bssd 80000000000) 95
    rfl (by norm_num) rfl rfl (Or.inl rfl) rfl (by norm_num) (by norm_num) (by decide)
  exact h.trans (by decide)

/-- Claim C2: whenever the target size `currentVolumeSize + increment`
exceeds the configured limit, no resize request is issued during the cycle,
no matter how far above the trigger the usage sample is. -/
theorem no_resize_when_target_over_limit (ar : AutoResizer) (t : Rat) (limit : Int)
    (env : CycleEnv) (inst : Instance)
    (hinst : env.instResp = Except.ok inst)
    (hlim0 : 0 ≤ limit) (hlim63 : limit < 2 ^ 63)
    (hov64 : inst.volume.size + diskSizeIncrement < 2 ^ 64)
    (hover : (inst.volume.size : Int) + (diskSizeIncrement : Int) > limit) :
    (runCycle ar t limit env).1 = [] := by
  have hmod : (inst.volume.size + diskSizeIncrement) % 2 ^ 64
      = inst.volume.size + diskSizeIncrement := Nat.mod_eq_of_lt hov64
  have hu : uint64OfInt limit = limit.toNat := by
    unfold uint64OfInt
    rw [Int.emod_eq_of_lt hlim0 (lt_trans hlim63 (by norm_num))]
  have hcond : (inst.volume.size + diskSizeIncrement) % 2 ^ 64 > uint64OfInt limit := by
    rw [hmod, hu]
    omega
  rcases hm : GetDiskUsagePercent env.metricsResp with v | e | m
  · by_cases hgt : v > t
    · by_cases hty : inst.volume.type ≠ VolumeType.bssd
      · simp only [runCycle, hm, hinst]
        rw [if_pos hgt, if_pos hty]
      · simp only [runCycle, hm, hinst]
        rw [if_pos hgt, if_neg hty, if_pos hcond]
    · simp only [runCycle, hm]
      rw [if_neg hgt]
  · simp [runCycle, hm]
  · simp [runCycle, hm]

/-- Witness for C2, Scenario B of the specification: trigger 90, limit
100 GB, current volume 97 GB, sample 95 % — the target of 102 GB exceeds the
limit and no resize request is issued. -/
theorem no_resize_when_target_over_limit_witness :
    (runCycle arX 90 100000000000
      { metricsResp := Except.ok (oneMetric 95),
        instResp := Except.ok (mkInst InstanceStatus.ready VolumeType.bssd 97000000000),
        resizeInstResp := Except.ok (mkInst InstanceStatus.ready VolumeType.bssd 97000000000),
        upgradeResp := noUpgrade }).1 = [] :=
  no_resize_when_target_over_limit arX 90 100000000000 _
    (mkInst InstanceStatus.ready VolumeType.bssd 97000000000)
    rfl (by norm_num) (by norm_num) (by decide) (by decide)

/-- If `parseOptions` succeeds, the configured limit is the parsed limit. -/
theorem parseOptions_ok_limit (tp : Option GoFloat) (lp : Option Int) (cfg : GoFloat × Int)
    (h : parseOptions tp lp = Except.ok cfg) : lp = some cfg.2 := by
  unfold parseOptions at h
  split at h
  · simp at h
  · split at h
    · simp at h
    · split at h
      · simp at h
      · split at h
        · simp at h
        · simp only [Except.ok.injEq] at h
          rw [← h]

/-- Claim C7: the one-time startup preflight fetches the instance and checks
that the volume type is `bssd` and the current size is strictly below the
limit; if either check fails — including a current size exactly equal to the
limit — the process exits with status 1 before any loop iteration. -/
theorem preflight_failure_aborts_startup (tp : Option GoFloat) (lp : Option Int)
    (clientOk : Bool) (inst : Instance) (l : Int)
    (hl : lp = some l)
    (hfail : inst.volume.type ≠ VolumeType.bssd ∨ int64OfUint64 inst.volume.size ≥ l) :
    startup tp lp clientOk (Except.ok inst) = Except.error 1 := by
  have hpre : ∃ s, preflight l (Except.ok inst) = Except.error s := by
    by_cases hty : inst.volume.type ≠ VolumeType.bssd
    · refine ⟨"unsupported volume type: " ++ inst.volume.type.toStr, ?_⟩
      simp only [preflight]
      rw [if_pos hty]
    · rcases hfail with h | h
      · exact absurd h hty
      · refine ⟨"current volume size is larger than the defined limit", ?_⟩
        simp only [preflight]
        rw [if_neg hty, if_pos h]
  obtain ⟨s, hs⟩ := hpre
  simp only [startup]
  split
  · rfl
  · rename_i cfg hp
    have h2 : cfg.2 = l := by
      have hsome := parseOptions_ok_limit tp lp cfg hp
      rw [hl] at hsome
      exact (Option.some.inj hsome).symm
    cases clientOk with
    | false => rfl
    | true =>
      rw [if_neg (by simp), h2, hs]

/-- Witness for C7, Scenario D of the specification: current volume 100 GB
with a 100 GB limit — the size is not strictly below the limit, so startup
aborts with exit status 1. -/
theorem preflight_failure_aborts_startup_witness :
    startup (some (GoFloat.num 90)) (some 100000000000) true
      (Except.ok (mkInst InstanceStatus.ready VolumeType.bssd 100000000000))
      = Except.error 1 :=
  preflight_failure_aborts_startup (some (GoFloat.num 90)) (some 100000000000) true
    (mkInst InstanceStatus.ready VolumeType.bssd 100000000000) 100000000000
    rfl (Or.inr (by decide))

/-- Counterexample to claim C8: `strconv.ParseFloat` accepts the string
`"NaN"`, and on a NaN trigger both comparisons of the guard
`triggerPercent >= 100 || triggerPercent < 80` are false, so configuration
validation succeeds — even though NaN does not lie in `[80, 100)` either
(both bound comparisons are also false).  Validation therefore does not
fail exactly on the claimed set. -/
theorem parseOptions_accepts_nan :
    parseOptions (some GoFloat.nan) (some 100000000000)
      = Except.ok (GoFloat.nan, 100000000000) ∧
    ¬ (GoFloat.nan.fge (GoFloat.num 80) = true ∧
        GoFloat.nan.flt (GoFloat.num 100) = true) :=
  ⟨rfl, by decide⟩

/-- The rejection guard of `parseOptions` fires exactly on the non-NaN
floats outside `[80, 100)`: NaN fails both its comparisons and both the
bound comparisons. -/
theorem triggerGuard_iff (tv : GoFloat) :
    (tv.fge (GoFloat.num 100) || tv.flt (GoFloat.num 80)) = true ↔
      (tv ≠ GoFloat.nan ∧
        ¬ (tv.fge (GoFloat.num 80) = true ∧ tv.flt (GoFloat.num 100) = true)) := by
  cases tv with
  | num q =>
    simp only [GoFloat.fge, GoFloat.flt, Bool.or_eq_true, decide_eq_true_eq, ne_eq,
      reduceCtorEq, not_false_eq_true, true_and]
    constructor
    · rintro (h | h) ⟨h80, h100⟩
      · linarith
      · linarith
    · intro h
      by_contra hc
      push_neg at hc
      exact h ⟨hc.2, hc.1⟩
  | posInf =>
    simp only [GoFloat.fge, GoFloat.flt, Bool.or_eq_true, ne_eq, reduceCtorEq,
      not_false_eq_true, true_and]
    simp
  | negInf =>
    simp only [GoFloat.fge, GoFloat.flt, Bool.or_eq_true, ne_eq, reduceCtorEq,
      not_false_eq_true, true_and]
    simp
  | nan =>
    simp only [GoFloat.fge, GoFloat.flt, Bool.or_eq_true, ne_eq]
    simp

/-- Claim C8 as amended: configuration validation fails (and the process
terminates with exit status 1 before any loop iteration) exactly when the
trigger percentage is unparsable or parses to a non-NaN float outside
`[80, 100)`, or the size ceiling is unparsable or non-positive; a NaN
trigger — parsable, yet outside `[80, 100)` — is accepted, because both
IEEE comparisons of the guard are false on NaN.  The hypothesis records the
grammar of the size parser (`units.FromHumanSize`): it has no sign, so every
successfully parsed ceiling is non-negative — a non-positive ceiling is
therefore rejected either as unparsable or by the explicit zero check. -/
theorem parseOptions_error_iff (tp : Option GoFloat) (lp : Option Int)
    (hnn : ∀ l, lp = some l → 0 ≤ l) :
    ((∃ e, parseOptions tp lp = Except.error e) ↔
      (tp = none ∨
        (∃ tv, tp = some tv ∧ tv ≠ GoFloat.nan ∧
          ¬ (tv.fge (GoFloat.num 80) = true ∧ tv.flt (GoFloat.num 100) = true)) ∨
        lp = none ∨ (∃ l, lp = some l ∧ l ≤ 0))) ∧
    (∀ e, parseOptions tp lp = Except.error e →
      ∀ c ir, startup tp lp c ir = Except.error 1) := by
  constructor
  · cases tp with
    | none => simp [parseOptions]
    | some tv =>
      by_cases ht : (tv.fge (GoFloat.num 100) || tv.flt (GoFloat.num 80)) = true
      · constructor
        · intro _
          exact Or.inr (Or.inl ⟨tv, rfl, (triggerGuard_iff tv).mp ht⟩)
        · intro _
          refine ⟨"trigger percent must be between 80 and 100", ?_⟩
          simp [parseOptions, ht]
      · cases lp with
        | none =>
          constructor
          · intro _
            exact Or.inr (Or.inr (Or.inl rfl))
          · intro _
            refine ⟨"invalid volume size limit", ?_⟩
            simp [parseOptions, ht]
        | some l =>
          by_cases hz : l = 0
          · subst hz
            constructor
            · intro _
              exact Or.inr (Or.inr (Or.inr ⟨0, rfl, le_refl 0⟩))
            · intro _
              refine ⟨"limit is ZERO, no resize can happen", ?_⟩
              simp [parseOptions, ht]
          · have hpos : 0 < l := lt_of_le_of_ne (hnn l rfl) (Ne.symm hz)
            constructor
            · rintro ⟨e, he⟩
              simp [parseOptions, ht, hz] at he
            · rintro (h | ⟨tv2, htv2, helig⟩ | h | ⟨l2, hl2, hle⟩)
              · simp at h
              · rw [Option.some.inj htv2] at ht
                exact absurd ((triggerGuard_iff tv2).mpr helig) ht
              · simp at h
              · rw [← Option.some.inj hl2] at hle
                omega
  · intro e he c ir
    unfold startup
    rw [he]

/-- Witness for the amended C8: a size ceiling of zero (the default `0GB`)
is rejected, and startup exits with status 1. -/
theorem parseOptions_error_iff_witness :
    (∃ e, parseOptions (some (GoFloat.num 90)) (some 0) = Except.error e) ∧
    startup (some (GoFloat.num 90)) (some 0) true (Except.error "unused")
      = Except.error 1 := by
  have h := parseOptions_error_iff (some (GoFloat.num 90)) (some 0)
    (fun l hl => by simp at hl; omega)
  refine ⟨h.1.mpr (Or.inr (Or.inr (Or.inr ⟨0, rfl, le_refl 0⟩))), ?_⟩
  exact h.2 "limit is ZERO, no resize can happen" rfl true (Except.error "unused")

/-- Claim C3: a resize request is issued only when the cycle's freshly
fetched instance has a `bssd` volume and the instance `ResizeVolume`
re-fetches for itself — a fresh descriptor, consulted anew on every resize
attempt, never cached — has status `ready` or `diskFull`; and, concretely,
an attempt against a `backuping` instance (Scenario E) yields an error
naming the ineligible status, issues no resize, and the cycle proceeds to
the next tick. -/
theorem resize_gated_on_fresh_eligibility (ar : AutoResizer) (t : Rat) (limit : Int)
    (env : CycleEnv) (req : UpgradeInstanceRequest)
    (hreq : req ∈ (runCycle ar t limit env).1) :
    ((∃ inst, env.instResp = Except.ok inst ∧ inst.volume.type = VolumeType.bssd) ∧
      (∃ inst2, env.resizeInstResp = Except.ok inst2 ∧
        (inst2.status = InstanceStatus.ready ∨ inst2.status = InstanceStatus.diskFull))) ∧
    runCycle arX 90 100000000000
      { metricsResp := Except.ok (oneMetric 99),
        instResp := Except.ok (mkInst InstanceStatus.backuping VolumeType.bssd 50000000000),
        resizeInstResp := Except.ok (mkInst InstanceStatus.backuping VolumeType.bssd 50000000000),
        upgradeResp := noUpgrade }
      = ([], CycleOutcome.next) ∧
    (ResizeVolume arX
      (Except.ok (mkInst InstanceStatus.backuping VolumeType.bssd 50000000000))
      noUpgrade 55000000000).2
      = Except.error "instance is not in a ready state: backuping" := by
  refine ⟨?_, rfl, rfl⟩
  simp only [runCycle] at hreq
  split at hreq
  · simp at hreq
  · simp at hreq
  · split at hreq
    · split at hreq
      · simp at hreq
      · rename_i inst hinst
        split at hreq
        · simp at hreq
        · rename_i hty
          split at hreq
          · simp at hreq
          · rename_i hsz
            constructor
            · exact ⟨inst, hinst, not_ne_iff.mp hty⟩
            · revert hreq
              simp only [ResizeVolume]
              split
              · intro hreq
                simp at hreq
              · rename_i hrinst
                intro _
                split at hrinst
                · simp at hrinst
                · rename_i inst2 hres
                  split at hrinst
                  · simp at hrinst
                  · rename_i helig
                    rcases not_and_or.mp helig with h | h
                    · exact ⟨inst2, hres, Or.inl (not_ne_iff.mp h)⟩
                    · exact ⟨inst2, hres, Or.inr (not_ne_iff.mp h)⟩
    · simp at hreq

/-- Witness for C3: at a cycle that does issue a request (Scenario A), the
eligibility facts hold of the fetched descriptors. -/
theorem resize_gated_on_fresh_eligibility_witness :
    ((∃ inst,
        (Except.ok (mkInst InstanceStatus.ready VolumeType.bssd 80000000000) :
            Except String Instance)
          = Except.ok inst ∧ inst.volume.type = VolumeType.bssd) ∧
      (∃ inst2,
        (Except.ok (mkInst InstanceStatus.ready VolumeType.bssd 80000000000) :
            Except String Instance)
          = Except.ok inst2 ∧
        (inst2.status = InstanceStatus.ready ∨ inst2.status = InstanceStatus.diskFull))) ∧
    runCycle arX 90 100000000000
      { metricsResp := Except.ok (oneMetric 99),
        instResp := Except.ok (mkInst InstanceStatus.backuping VolumeType.bssd 50000000000),
        resizeInstResp := Except.ok (mkInst InstanceStatus.backuping VolumeType.bssd 50000000000),
        upgradeResp := noUpgrade }
      = ([], CycleOutcome.next) ∧
    (ResizeVolume arX
      (Except.ok (mkInst InstanceStatus.backuping VolumeType.bssd 50000000000))
      noUpgrade 55000000000).2
      = Except.error "instance is not in a ready state: backuping" :=
  resize_gated_on_fresh_eligibility arX 90 100000000000
    { metricsResp := Except.ok (oneMetric 95),
      instResp := Except.ok (mkInst InstanceStatus.ready VolumeType.bssd 80000000000),
      resizeInstResp := Except.ok (mkInst InstanceStatus.ready VolumeType.bssd 80000000000),
      upgradeResp := noUpgrade }
    { region := "fr-par", instanceID := "inst-1", volumeSize := 85000000000 }
    (by decide)

end RdbAutoResize
